import Mathlib

/-!
Shallow embedding of the per-call orchestration pipeline of the
Anticipatory User Response Assistant backend.

Numeric values that the Python source holds in floats are modelled as
exact rationals (ℚ); the claims under study are algebraic identities and
orderings, not float-rounding properties.
-/

namespace Aura

/-! Turn detection: listener_agent.ListenerAgent.detect_turn_boundary.
The mutable field last_speech_time is the state (Option ℚ, seconds);
energy is the computed mean absolute sample value.  Constants from the
source: silence_threshold = 500 (listener_agent.py line 193) and
silence_threshold_ms = settings.VAD_SILENCE_THRESHOLD_MS = 650
(config.py line 48). -/

structure VadConfig where
  silence_threshold : ℚ
  silence_threshold_ms : ℚ
  deriving Repr, DecidableEq

def defaultVad : VadConfig := { silence_threshold := 500, silence_threshold_ms := 650 }

/-- Step function of detect_turn_boundary: given last_speech_time, an energy
sample and the current timestamp, return the new last_speech_time and
whether a turn boundary was signaled. -/
def detect_turn_boundary (cfg : VadConfig) (last_speech_time : Option ℚ)
    (energy current_time : ℚ) : Option ℚ × Bool :=
  if energy < cfg.silence_threshold then
    match last_speech_time with
    | none => (some current_time, false)
    | some t0 =>
        if (current_time - t0) * 1000 ≥ cfg.silence_threshold_ms then
          (none, true)
        else
          (some t0, false)
  else
    (none, false)

/-- Fold detect_turn_boundary over a list of (energy, timestamp) samples,
returning the final state and the per-sample boundary signals. -/
def run_detector (cfg : VadConfig) (last_speech_time : Option ℚ) :
    List (ℚ × ℚ) → Option ℚ × List Bool
  | [] => (last_speech_time, [])
  | s :: rest =>
      let step := detect_turn_boundary cfg last_speech_time s.1 s.2
      let tail := run_detector cfg step.1 rest
      (tail.1, step.2 :: tail.2)

/-! Persona performance: history_rl_agent.HistoryRLAgent.
Entries of persona_performance_cache, with the default created lazily. -/

structure PerfEntry where
  success_rate : ℚ
  satisfaction_avg : ℚ
  resolution_rate : ℚ
  call_count : ℕ
  deriving Repr, DecidableEq

def defaultPerf : PerfEntry :=
  { success_rate := 1/2, satisfaction_avg := 1/2, resolution_rate := 1/2, call_count := 0 }

/-- Outcome dict as consumed by update_persona_performance: the keys
satisfaction and resolved are each optionally present. -/
structure PersonaOutcome where
  satisfaction : Option ℚ
  resolved : Option Bool
  deriving Repr, DecidableEq

/-- EMA update of one persona-performance entry
(history_rl_agent.py lines 349-373), α = 0.1. -/
def update_persona_performance (perf : PerfEntry) (outcome : PersonaOutcome) : PerfEntry :=
  let alpha : ℚ := 1/10
  let sa :=
    match outcome.satisfaction with
    | some s => alpha * s + (1 - alpha) * perf.satisfaction_avg
    | none => perf.satisfaction_avg
  let rr :=
    match outcome.resolved with
    | some b => alpha * (if b then 1 else 0) + (1 - alpha) * perf.resolution_rate
    | none => perf.resolution_rate
  { success_rate := sa * (6/10) + rr * (4/10)
    satisfaction_avg := sa
    resolution_rate := rr
    call_count := perf.call_count + 1 }

/-- Outcome used in the convergence claim: satisfaction 1.0, resolved true. -/
def perfectOutcome : PersonaOutcome := { satisfaction := some 1, resolved := some true }

/-- Iterated update with the perfect outcome. -/
def iteratePerf (perf : PerfEntry) : ℕ → PerfEntry
  | 0 => perf
  | n + 1 => update_persona_performance (iteratePerf perf n) perfectOutcome

/-! Persona selection: history_rl_agent.HistoryRLAgent.select_optimal_persona. -/

def PERSONA_TYPES : List String :=
  ["empathetic_authoritative",
   "efficient_solution_focused",
   "friendly_casual",
   "professional_formal",
   "patient_educational",
   "assertive_direct",
   "supportive_encouraging",
   "analytical_detailed"]

structure Sentiment where
  polarity : ℚ
  emotion : String
  deriving Repr, DecidableEq

/-- Composite score of one persona inside the selection loop
(history_rl_agent.py lines 250-260): base weights 0.4 / 0.3 / 0.3, with a
1.1 boost when call_count is positive. -/
def personaScore (perf : PerfEntry) : ℚ :=
  let score := perf.success_rate * (4/10) + perf.satisfaction_avg * (3/10)
      + perf.resolution_rate * (3/10)
  if perf.call_count > 0 then score * (11/10) else score

/-- Performance cache keyed by the string customer_type:persona_type. -/
def PerfCache : Type := String → Option PerfEntry

/-- Best-persona loop of select_optimal_persona (lines 238-264): running
pair of best persona and best score, starting from (none, 0.0); a persona
replaces the running best only when its score is strictly greater. -/
def selectLoop (cache : PerfCache) (customer_type : String) : Option String × ℚ :=
  PERSONA_TYPES.foldl
    (fun best persona =>
      let perf := (cache (customer_type ++ ":" ++ persona)).getD defaultPerf
      let score := personaScore perf
      if score > best.2 then (some persona, score) else best)
    (none, 0)

/-- Heuristic cascade of select_optimal_persona (lines 266-278), used when
no persona was selected or the best score is below 0.3. -/
def heuristicPersona (intent : String) (sentiment : Sentiment) : String :=
  if sentiment.polarity < -(3/10) ∨ sentiment.emotion = "angry"
      ∨ sentiment.emotion = "frustrated" then
    "empathetic_authoritative"
  else if intent = "technical_support" then
    "patient_educational"
  else if intent = "billing_inquiry" then
    "efficient_solution_focused"
  else
    "friendly_casual"

/-- Condition under which the source falls back to the heuristic cascade. -/
def usesFallback (cache : PerfCache) (customer_type : String) : Bool :=
  let best := selectLoop cache customer_type
  best.1 = none ∨ best.2 < 3/10

def select_optimal_persona (cache : PerfCache) (customer_type intent : String)
    (sentiment : Sentiment) : String :=
  let best := selectLoop cache customer_type
  let chosen :=
    if best.1 = none ∨ best.2 < 3/10 then some (heuristicPersona intent sentiment)
    else best.1
  chosen.getD "friendly_casual"

/-- Cache with no entry for any key. -/
def emptyCache : PerfCache := fun _ => none

/-! Response scoring: critic_ranker_agent.CriticRankerAgent.score_response.
The learned value network is modelled by the value it yields on the
encoded state, or none when self.value_network is None; in the latter case
calling it raises a TypeError which the except-handler of score_response
turns into the fallback result with score 0.5 and no breakdown. -/

structure DialoguePlan where
  expected_resolution_probability : Option ℚ
  expected_sentiment_improvement : Option ℚ
  deriving Repr, DecidableEq

structure ScoreResult where
  score : ℚ
  value_estimate : Option ℚ
  composite_score : Option ℚ
  efficiency : Option ℚ
  isError : Bool
  deriving Repr, DecidableEq

def score_response (value_network : Option ℚ) (text_length : ℕ)
    (plan : DialoguePlan) : ScoreResult :=
  match value_network with
  | none =>
      { score := 1/2, value_estimate := none, composite_score := none,
        efficiency := none, isError := true }
  | some value_estimate =>
      let resolution_score := plan.expected_resolution_probability.getD (1/2)
      let sentiment_improvement := plan.expected_sentiment_improvement.getD 0
      let satisfaction_estimate := 1/2 + sentiment_improvement
      let efficiency_score := max 0 (1 - ((text_length : ℚ) - 50) / 200)
      let composite_score :=
        (4/10) * resolution_score + (3/10) * satisfaction_estimate
          + (2/10) * (sentiment_improvement + 1/2) + (1/10) * efficiency_score
      let final_score := (6/10) * composite_score + (4/10) * (value_estimate + 1/2)
      { score := final_score, value_estimate := some value_estimate,
        composite_score := some composite_score, efficiency := some efficiency_score,
        isError := false }

/-! Pipeline orchestrator: services/pipeline.ConversationPipeline.
The per-call mutable dict call_state, the active_calls store, start_call,
the turn-processing path of process_audio_chunk (the utterance is modelled
as already-decoded text), and the customer-metrics section of end_call.
Downstream agents are modelled as collaborators returning Except values;
a raised exception is an Except.error, and the except-handler of
process_audio_chunk turns it into a status-error result. -/

structure TranscriptEntry where
  text : String
  speaker : String
  deriving Repr, DecidableEq

structure Interpretation where
  intent : Option String
  sentiment : Option Sentiment
  deriving Repr, DecidableEq

structure CustomerContext where
  customer_type : String
  selected_persona : String
  deriving Repr, DecidableEq

structure CallState where
  call_id : String
  customer_id : String
  transcripts : List TranscriptEntry
  interpretations : List Interpretation
  responses : List (List ScoreResult)
  current_intent : Option String
  current_sentiment : Option Sentiment
  selected_persona : Option String
  deriving Repr, DecidableEq

def freshCallState (call_id customer_id : String) : CallState :=
  { call_id := call_id, customer_id := customer_id, transcripts := [],
    interpretations := [], responses := [], current_intent := none,
    current_sentiment := none, selected_persona := none }

def CallStore : Type := String → Option CallState

/-- Creation of a call state (pipeline.py lines 51-67): the fresh state is
stored unconditionally under call_id. -/
def start_call (calls : CallStore) (call_id customer_id : String) : CallStore :=
  fun k => if k = call_id then some (freshCallState call_id customer_id) else calls k

/-- Downstream collaborators of process_audio_chunk; each may fail with a
message, modelling a raised exception. -/
structure Collaborators where
  interpret : String → Except String Interpretation
  get_customer_context : String → Option String → Option Sentiment →
      Except String CustomerContext
  plan_dialogue : String → Option String → Option Sentiment → Option String →
      Except String (List DialoguePlan)
  rank_responses : List DialoguePlan → Except String (List ScoreResult)

structure TurnResult where
  call_id : String
  status : String
  transcript : String
  errorMessage : Option String
  deriving Repr, DecidableEq

/-- Body of the try-block of process_audio_chunk (pipeline.py lines 93-190),
after the transcript has been obtained: the early processing-status return
for empty text or non-customer speakers happens before the transcript is
appended; otherwise the stages run in sequence and any failure escapes as
an error. -/
def processTurnBody (collab : Collaborators) (st : CallState)
    (call_id transcript speaker : String) :
    Except String (CallState × TurnResult) :=
  if transcript = "" ∨ speaker ≠ "customer" then
    .ok (st, { call_id := call_id, status := "processing", transcript := transcript,
               errorMessage := none })
  else do
    let st1 := { st with
      transcripts := st.transcripts ++ [TranscriptEntry.mk transcript speaker] }
    let interp ← collab.interpret transcript
    let st2 := { st1 with
      interpretations := st1.interpretations ++ [interp],
      current_intent := interp.intent,
      current_sentiment := interp.sentiment }
    let ctx ← collab.get_customer_context st2.customer_id st2.current_intent
        st2.current_sentiment
    let st3 := { st2 with selected_persona := some ctx.selected_persona }
    let plans ← collab.plan_dialogue transcript st3.current_intent
        st3.current_sentiment st3.selected_persona
    let ranked ← collab.rank_responses plans
    let st4 := { st3 with responses := st3.responses ++ [ranked] }
    .ok (st4, { call_id := call_id, status := "complete", transcript := transcript,
                errorMessage := none })

/-- Full process_audio_chunk: auto-create an unknown call, run the body,
and catch any failure into a status-error result. -/
def process_audio_chunk (collab : Collaborators) (calls : CallStore)
    (call_id transcript speaker : String) : CallStore × TurnResult :=
  let calls1 :=
    match calls call_id with
    | some _ => calls
    | none => start_call calls call_id "customer_auto"
  let st := (calls1 call_id).getD (freshCallState call_id "customer_auto")
  match processTurnBody collab st call_id transcript speaker with
  | .ok result =>
      (fun k => if k = call_id then some result.1 else calls1 k, result.2)
  | .error e =>
      (calls1, { call_id := call_id, status := "error", transcript := transcript,
                 errorMessage := some e })

/-- Customer profile row as mutated by end_call. -/
structure Customer where
  total_calls : ℕ
  satisfaction_avg : ℚ
  resolution_rate : ℚ
  deriving Repr, DecidableEq

/-- Call outcome as read by the customer-metrics section of end_call. -/
structure CallOutcome where
  satisfaction : Option ℚ
  resolved : Bool
  deriving Repr, DecidableEq

/-- Customer-metrics update of end_call (pipeline.py lines 241-258):
total_calls is incremented first; satisfaction_avg is folded in only when a
satisfaction value is present; resolution_rate is folded in with value 1.0
only when the outcome is resolved. -/
def update_customer_metrics (c : Customer) (outcome : CallOutcome) : Customer :=
  let total_calls := c.total_calls + 1
  let c1 := { c with total_calls := total_calls }
  let c2 :=
    match outcome.satisfaction with
    | some s =>
        { c1 with satisfaction_avg :=
            (c1.satisfaction_avg * ((total_calls : ℚ) - 1) + s) / (total_calls : ℚ) }
    | none => c1
  if outcome.resolved then
    { c2 with resolution_rate :=
        (c2.resolution_rate * ((total_calls : ℚ) - 1) + 1) / (total_calls : ℚ) }
  else c2

/-! Concrete fixtures used by counterexamples and witnesses. -/

/-- Dialogue plan of the concrete scenario of C1: expected resolution
probability 0.8, expected sentiment improvement 0.2. -/
def c1Plan : DialoguePlan :=
  { expected_resolution_probability := some (4/5),
    expected_sentiment_improvement := some (1/5) }

/-- Call state with one recorded transcript entry, used to exhibit the
behaviour of start_call and process_audio_chunk on an existing call. -/
def demoState : CallState :=
  { call_id := "c1", customer_id := "alice",
    transcripts := [TranscriptEntry.mk "hi" "customer"],
    interpretations := [], responses := [], current_intent := none,
    current_sentiment := none, selected_persona := none }

/-- Store holding demoState under call id c1. -/
def demoStore : CallStore := fun k => if k = "c1" then some demoState else none

/-- Collaborators that all fail, modelling unreachable downstream agents. -/
def failingCollab : Collaborators :=
  { interpret := fun _ => .error "nlu down",
    get_customer_context := fun _ _ _ => .error "context down",
    plan_dialogue := fun _ _ _ _ => .error "planner down",
    rank_responses := fun _ => .error "ranker down" }

/-! Claim theorems. -/

/-- C9: applying update_persona_performance with outcome satisfaction 0.9,
resolved true to the default entry (0.5, 0.5, 0.5, count 0) yields exactly
satisfaction_avg 0.54, resolution_rate 0.55, success_rate 0.544 and
call_count 1, with learning rate 0.1. -/
theorem c9_concrete_update :
    update_persona_performance defaultPerf
        { satisfaction := some (9/10), resolved := some true } =
      { success_rate := 0.544, satisfaction_avg := 0.54,
        resolution_rate := 0.55, call_count := 1 } := by
  norm_num [update_persona_performance, defaultPerf, PerfEntry.mk.injEq]

/-- C7: after every update of a persona-performance entry, for every
outcome, success_rate equals 0.6 * satisfaction_avg + 0.4 * resolution_rate
of the updated entry; it is recomputed from the other two fields, never set
independently. -/
theorem c7_success_rate_invariant (perf : PerfEntry) (outcome : PersonaOutcome) :
    (update_persona_performance perf outcome).success_rate =
      (6/10) * (update_persona_performance perf outcome).satisfaction_avg +
        (4/10) * (update_persona_performance perf outcome).resolution_rate := by
  rcases outcome with ⟨s, r⟩
  cases s <;> cases r <;> simp [update_persona_performance] <;> ring

/-- C1 counterexample: for the concrete candidate (text length 50,
expected_resolution_probability 0.8, expected_sentiment_improvement 0.2)
scored with no value network, score_response returns the except-handler
fallback with final score 0.5 and no composite score at all; the claim
demands final = composite = 0.75. -/
theorem c1_counterexample :
    (score_response none 50 c1Plan).score = 1/2 ∧
      (score_response none 50 c1Plan).composite_score = none ∧
      (score_response none 50 c1Plan).isError = true ∧
      (1 : ℚ)/2 ≠ 3/4 ∧
      (4/10) * (4/5) + (3/10) * (7/10) + (2/10) * (1/5 + 1/2) + (1/10) * 1
        = (77/100 : ℚ) ∧
      (77/100 : ℚ) ≠ 3/4 := by
  refine ⟨rfl, rfl, rfl, by norm_num, by norm_num, by norm_num⟩

/-- C1 amended: when no value network is available, score_response returns
the exception fallback with score 0.5 and no composite (for every candidate);
when a value estimate v is produced, the concrete candidate of the claim
gets efficiency 1.0 and composite 0.77 (not 0.75), and the final score is
the blend 0.6 * 0.77 + 0.4 * (v + 0.5), never the bare composite. -/
theorem c1_amended_scoring (v : ℚ) (text_length : ℕ) (plan : DialoguePlan) :
    (score_response none text_length plan).score = 1/2 ∧
      (score_response none text_length plan).composite_score = none ∧
      (score_response (some v) 50 c1Plan).efficiency = some 1 ∧
      (score_response (some v) 50 c1Plan).composite_score = some (77/100) ∧
      (score_response (some v) 50 c1Plan).score
        = (6/10) * (77/100) + (4/10) * (v + 1/2) := by
  refine ⟨rfl, rfl, ?_, ?_, ?_⟩ <;>
    norm_num [score_response, c1Plan]

/-- C4 counterexample: a customer with one prior call and resolution_rate
0.5, ending a call with outcome satisfaction 0.5, resolved false: the code
leaves resolution_rate at 0.5, while the claimed incremental-average rule
with new_value 0 would give (0.5 * 1 + 0) / 2 = 0.25. -/
theorem c4_counterexample :
    update_customer_metrics
        { total_calls := 1, satisfaction_avg := 1/2, resolution_rate := 1/2 }
        { satisfaction := some (1/2), resolved := false } =
      { total_calls := 2, satisfaction_avg := 1/2, resolution_rate := 1/2 } ∧
      ((1 : ℚ)/2 * (2 - 1) + 0) / 2 = 1/4 ∧ (1 : ℚ)/2 ≠ 1/4 := by
  refine ⟨?_, by norm_num, by norm_num⟩
  norm_num [update_customer_metrics, Customer.mk.injEq]

/-- C4 amended: at call end, total_calls is incremented; satisfaction_avg
follows the incremental-average rule with the post-increment count whenever
a satisfaction value is present; resolution_rate follows the rule with
new_value 1 when resolved, and is left unchanged (not averaged with 0) when
not resolved. -/
theorem c4_amended_customer_update (c : Customer) (outcome : CallOutcome) :
    (update_customer_metrics c outcome).total_calls = c.total_calls + 1 ∧
      (∀ s, outcome.satisfaction = some s →
        (update_customer_metrics c outcome).satisfaction_avg =
          (c.satisfaction_avg * (((c.total_calls + 1 : ℕ) : ℚ) - 1) + s) /
            ((c.total_calls + 1 : ℕ) : ℚ)) ∧
      (outcome.satisfaction = none →
        (update_customer_metrics c outcome).satisfaction_avg = c.satisfaction_avg) ∧
      (outcome.resolved = true →
        (update_customer_metrics c outcome).resolution_rate =
          (c.resolution_rate * (((c.total_calls + 1 : ℕ) : ℚ) - 1) + 1) /
            ((c.total_calls + 1 : ℕ) : ℚ)) ∧
      (outcome.resolved = false →
        (update_customer_metrics c outcome).resolution_rate = c.resolution_rate) := by
  rcases outcome with ⟨s, r⟩
  cases s <;> cases r <;>
    simp [update_customer_metrics]

/-- C4 witness: the amended update rule evaluated at the counterexample
customer and outcome. -/
theorem c4_amended_witness :
    (update_customer_metrics
        { total_calls := 1, satisfaction_avg := 1/2, resolution_rate := 1/2 }
        { satisfaction := some (1/2), resolved := false }).satisfaction_avg =
      ((1 : ℚ)/2 * (((1 + 1 : ℕ) : ℚ) - 1) + 1/2) / ((1 + 1 : ℕ) : ℚ) ∧
    (update_customer_metrics
        { total_calls := 1, satisfaction_avg := 1/2, resolution_rate := 1/2 }
        { satisfaction := some (1/2), resolved := false }).resolution_rate = 1/2 := by
  have h := c4_amended_customer_update
      { total_calls := 1, satisfaction_avg := 1/2, resolution_rate := 1/2 }
      { satisfaction := some (1/2), resolved := false }
  exact ⟨h.2.1 (1/2) rfl, h.2.2.2.2 rfl⟩

/-- C5 counterexample: calling start_call on a call id that already holds an
active state replaces that state with a fresh one: the recorded transcript
and the customer id of the existing state are lost, not left unchanged. -/
theorem c5_counterexample :
    (start_call demoStore "c1" "bob") "c1" = some (freshCallState "c1" "bob") ∧
      demoStore "c1" = some demoState ∧
      freshCallState "c1" "bob" ≠ demoState := by
  refine ⟨rfl, rfl, ?_⟩
  simp [freshCallState, demoState, CallState.mk.injEq]

/-- C5 amended: start_call on an existing call id is neither a rejection nor
a no-op: it unconditionally overwrites the stored state with a fresh empty
CallState for the given customer, and leaves every other call id untouched. -/
theorem c5_amended_overwrite (calls : CallStore) (call_id customer_id : String) :
    (start_call calls call_id customer_id) call_id =
        some (freshCallState call_id customer_id) ∧
      (∀ k, k ≠ call_id → (start_call calls call_id customer_id) k = calls k) := by
  constructor
  · simp [start_call]
  · intro k hk
    simp [start_call, hk]

/-- C5 amended witness: start_call evaluated over the store that already
holds a state under c1. -/
theorem c5_amended_witness :
    (start_call demoStore "c1" "bob") "c1" = some (freshCallState "c1" "bob") ∧
      (start_call demoStore "c1" "bob") "c2" = demoStore "c2" :=
  ⟨(c5_amended_overwrite demoStore "c1" "bob").1,
    (c5_amended_overwrite demoStore "c1" "bob").2 "c2" (by decide)⟩

/-- C10: with an empty persona-performance table every persona scores the
default 0.5 * 0.4 + 0.5 * 0.3 + 0.5 * 0.3 = 0.5, which is not below the 0.3
threshold, so for every customer type, intent and sentiment the selection
loop keeps the first persona in enumeration order, the heuristic cascade is
not taken, and select_optimal_persona returns empathetic_authoritative. -/
theorem c10_empty_table_first_persona (customer_type intent : String)
    (sentiment : Sentiment) :
    select_optimal_persona emptyCache customer_type intent sentiment
        = "empathetic_authoritative" ∧
      selectLoop emptyCache customer_type = (some "empathetic_authoritative", 1/2) ∧
      personaScore defaultPerf = 1/2 ∧
      usesFallback emptyCache customer_type = false := by
  have hscore : personaScore defaultPerf = 1/2 := by
    norm_num [personaScore, defaultPerf]
  have hloop : selectLoop emptyCache customer_type
      = (some "empathetic_authoritative", 1/2) := by
    simp only [selectLoop, PERSONA_TYPES, emptyCache, List.foldl_cons,
      List.foldl_nil, Option.getD_none, hscore]
    norm_num
  refine ⟨?_, hloop, hscore, ?_⟩
  · norm_num [select_optimal_persona, hloop]
    simp
  · norm_num [usesFallback, hloop]
    simp

/-- C2 counterexample: four samples of energy 0 (all below the silence
threshold 500, hence one maximal silent run) at times 0 s, 0.65 s, 0.66 s
and 1.31 s: the detector signals at 0.65 s, rearms, and signals again at
1.31 s — two boundaries in a single maximal qualifying silence run, not
exactly one. -/
theorem c2_counterexample :
    (run_detector defaultVad none
        [(0, 0), (0, 13/20), (0, 33/50), (0, 131/100)]).2
        = [false, true, false, true] ∧
      ([(0, 0), (0, 13/20), (0, 33/50), ((0 : ℚ), (131/100 : ℚ))].all
          fun s => s.1 < defaultVad.silence_threshold) = true ∧
      [false, true, false, true].count true = 2 := by
  refine ⟨?_, by decide, by decide⟩
  simp [run_detector, detect_turn_boundary, defaultVad]
  norm_num

/-- C2 amended: detect_turn_boundary signals a boundary exactly on those
samples whose energy is below the silence threshold while a silence-entry
timestamp t0 is recorded and the elapsed time (t - t0) has reached the
configured silence duration; on signaling the timer is cleared and rearms,
so one maximal silent run can signal several boundaries. A sample with
energy at or above the threshold never signals and clears the timer. -/
theorem c2_amended_boundary_rule (cfg : VadConfig) (last : Option ℚ)
    (energy t : ℚ) :
    ((detect_turn_boundary cfg last energy t).2 = true ↔
        energy < cfg.silence_threshold ∧
          ∃ t0, last = some t0 ∧ cfg.silence_threshold_ms ≤ (t - t0) * 1000) ∧
      (cfg.silence_threshold ≤ energy →
        detect_turn_boundary cfg last energy t = (none, false)) := by
  constructor
  · rcases last with _ | t0 <;>
      simp only [detect_turn_boundary] <;> split_ifs <;> simp_all
  · intro h
    unfold detect_turn_boundary
    rw [if_neg (not_lt.mpr h)]

/-- C2 amended witness: a boundary fires at elapsed 650 ms with energy 0,
and a loud sample clears the timer without signaling. -/
theorem c2_amended_witness :
    (detect_turn_boundary defaultVad (some 0) 0 (13/20)).2 = true ∧
      detect_turn_boundary defaultVad (some 0) 600 (13/20) = (none, false) := by
  have h1 := c2_amended_boundary_rule defaultVad (some 0) 0 (13/20)
  have h2 := c2_amended_boundary_rule defaultVad (some 0) 600 (13/20)
  refine ⟨h1.1.mpr ⟨by norm_num [defaultVad], 0, rfl, by norm_num [defaultVad]⟩, ?_⟩
  exact h2.2 (by norm_num [defaultVad])

/-- Helper: every successful run of the try-block body reports status
processing or complete. -/
theorem processTurnBody_ok_status (collab : Collaborators) (st : CallState)
    (call_id transcript speaker : String) (r : CallState × TurnResult)
    (h : processTurnBody collab st call_id transcript speaker = .ok r) :
    r.2.status = "processing" ∨ r.2.status = "complete" := by
  unfold processTurnBody at h
  split at h
  · cases h
    exact Or.inl rfl
  · rcases ha : collab.interpret transcript with e | interp <;> rw [ha] at h <;>
      simp only [bind, Except.bind] at h
    · exact Except.noConfusion h
    rcases hb : collab.get_customer_context st.customer_id interp.intent
        interp.sentiment with e | ctx <;> rw [hb] at h <;>
      simp only [bind, Except.bind] at h
    · exact Except.noConfusion h
    rcases hc : collab.plan_dialogue transcript interp.intent interp.sentiment
        (some ctx.selected_persona) with e | plans <;> rw [hc] at h <;>
      simp only [bind, Except.bind] at h
    · exact Except.noConfusion h
    rcases hd : collab.rank_responses plans with e | ranked <;> rw [hd] at h <;>
      simp only [bind, Except.bind] at h
    · exact Except.noConfusion h
    cases h
    exact Or.inr rfl

/-- C6: for every store, call id, transcript, speaker and every behaviour
of the downstream collaborators, including ones that fail at any stage,
process_audio_chunk returns a structured result whose status is processing,
complete or error — a raised collaborator failure is caught into an error
result, never propagated. -/
theorem c6_always_structured_result (collab : Collaborators) (calls : CallStore)
    (call_id transcript speaker : String) :
    (process_audio_chunk collab calls call_id transcript speaker).2.status
        = "processing" ∨
      (process_audio_chunk collab calls call_id transcript speaker).2.status
        = "complete" ∨
      (process_audio_chunk collab calls call_id transcript speaker).2.status
        = "error" := by
  simp only [process_audio_chunk]
  split
  next r heq =>
    rcases processTurnBody_ok_status collab _ call_id transcript speaker r heq
        with h | h
    · exact Or.inl h
    · exact Or.inr (Or.inl h)
  next e heq => exact Or.inr (Or.inr rfl)

/-- C3 counterexample: a non-customer turn (speaker agent, nonempty text) on
an existing call returns the processing status without touching any stage,
but the turn is not recorded: the stored transcript log still holds exactly
the one earlier entry, unchanged. -/
theorem c3_counterexample :
    (process_audio_chunk failingCollab demoStore "c1" "hello" "agent").2.status
        = "processing" ∧
      (process_audio_chunk failingCollab demoStore "c1" "hello" "agent").1 "c1"
        = some demoState ∧
      demoState.transcripts = [TranscriptEntry.mk "hi" "customer"] := by
  refine ⟨rfl, ?_, rfl⟩
  simp [process_audio_chunk, processTurnBody, demoStore]

/-- C3 amended: when the speaker is not customer or the transcript is empty,
process_audio_chunk returns the processing status, leaves the stored state
of the call unchanged (the turn is NOT appended to the transcript log; an
unknown call id only gets a fresh empty state), and the result and store are
independent of the downstream collaborators, so no stage is invoked. -/
theorem c3_amended_early_return (collab collab2 : Collaborators)
    (calls : CallStore) (call_id transcript speaker : String)
    (h : transcript = "" ∨ speaker ≠ "customer") :
    (process_audio_chunk collab calls call_id transcript speaker).2.status
        = "processing" ∧
      (∀ st, calls call_id = some st →
        (process_audio_chunk collab calls call_id transcript speaker).1 call_id
          = some st) ∧
      (calls call_id = none →
        (process_audio_chunk collab calls call_id transcript speaker).1 call_id
          = some (freshCallState call_id "customer_auto")) ∧
      process_audio_chunk collab calls call_id transcript speaker
        = process_audio_chunk collab2 calls call_id transcript speaker := by
  have hbody : ∀ c : Collaborators, ∀ st : CallState,
      processTurnBody c st call_id transcript speaker =
        .ok (st, { call_id := call_id, status := "processing",
                   transcript := transcript, errorMessage := none }) := by
    intro c st
    unfold processTurnBody
    rw [if_pos h]
  refine ⟨?_, ?_, ?_, ?_⟩
  · simp only [process_audio_chunk, hbody]
  · intro st hst
    simp only [process_audio_chunk, hst, hbody, Option.getD_some]
    simp
  · intro hnone
    simp only [process_audio_chunk, hnone, hbody]
    simp [start_call]
  · simp only [process_audio_chunk, hbody]

/-- C3 amended witness: the early-return path evaluated on a concrete
non-customer turn over an existing call. -/
theorem c3_amended_witness :
    (process_audio_chunk failingCollab demoStore "c1" "hi there" "agent").2.status
        = "processing" ∧
      (process_audio_chunk failingCollab demoStore "c1" "hi there" "agent").1 "c1"
        = some demoState := by
  have h := c3_amended_early_return failingCollab failingCollab demoStore
      "c1" "hi there" "agent" (Or.inr (by decide))
  exact ⟨h.1, h.2.1 demoState rfl⟩

/-- Helper: one perfect-outcome update moves satisfaction_avg by the EMA
step with target 1. -/
theorem iteratePerf_sa_succ (e : PerfEntry) (n : ℕ) :
    (iteratePerf e (n+1)).satisfaction_avg
      = 1/10 + (9/10) * (iteratePerf e n).satisfaction_avg := by
  simp only [iteratePerf, update_persona_performance, perfectOutcome]
  ring

/-- Helper: one perfect-outcome update moves resolution_rate by the EMA
step with target 1. -/
theorem iteratePerf_rr_succ (e : PerfEntry) (n : ℕ) :
    (iteratePerf e (n+1)).resolution_rate
      = 1/10 + (9/10) * (iteratePerf e n).resolution_rate := by
  simp only [iteratePerf, update_persona_performance, perfectOutcome]
  norm_num

/-- Helper: after at least one update the success rate is the recomputed
blend of the other two fields. -/
theorem iteratePerf_sr_succ (e : PerfEntry) (n : ℕ) :
    (iteratePerf e (n+1)).success_rate
      = (iteratePerf e (n+1)).satisfaction_avg * (6/10)
        + (iteratePerf e (n+1)).resolution_rate * (4/10) := by
  simp [iteratePerf, update_persona_performance, perfectOutcome]

/-- Helper: geometric closed form of the satisfaction gap to 1. -/
theorem iteratePerf_sa_gap (e : PerfEntry) (n : ℕ) :
    1 - (iteratePerf e n).satisfaction_avg
      = (9/10)^n * (1 - e.satisfaction_avg) := by
  induction n with
  | zero => simp [iteratePerf]
  | succ n ih =>
      rw [iteratePerf_sa_succ]
      calc 1 - (1/10 + (9/10) * (iteratePerf e n).satisfaction_avg)
          = (9/10) * (1 - (iteratePerf e n).satisfaction_avg) := by ring
        _ = (9/10) * ((9/10)^n * (1 - e.satisfaction_avg)) := by rw [ih]
        _ = (9/10)^(n+1) * (1 - e.satisfaction_avg) := by ring

/-- Helper: geometric closed form of the resolution gap to 1. -/
theorem iteratePerf_rr_gap (e : PerfEntry) (n : ℕ) :
    1 - (iteratePerf e n).resolution_rate
      = (9/10)^n * (1 - e.resolution_rate) := by
  induction n with
  | zero => simp [iteratePerf]
  | succ n ih =>
      rw [iteratePerf_rr_succ]
      calc 1 - (1/10 + (9/10) * (iteratePerf e n).resolution_rate)
          = (9/10) * (1 - (iteratePerf e n).resolution_rate) := by ring
        _ = (9/10) * ((9/10)^n * (1 - e.resolution_rate)) := by rw [ih]
        _ = (9/10)^(n+1) * (1 - e.resolution_rate) := by ring

/-- Helper: when the entry starts with the §3 invariant, every iterate of
the update keeps success_rate equal to the blend of the other two fields. -/
theorem iteratePerf_sr_eq (e : PerfEntry)
    (hinv : e.success_rate
      = (6/10) * e.satisfaction_avg + (4/10) * e.resolution_rate) (n : ℕ) :
    (iteratePerf e n).success_rate
      = (6/10) * (iteratePerf e n).satisfaction_avg
        + (4/10) * (iteratePerf e n).resolution_rate := by
  cases n with
  | zero => exact hinv
  | succ n =>
      rw [iteratePerf_sr_succ]
      ring

/-- C8: for every persona-performance entry (its success_rate being the §3
blend of its other two fields) with satisfaction_avg and resolution_rate
below 1, repeatedly applying the update with outcome satisfaction 1.0,
resolved true strictly increases satisfaction_avg, resolution_rate and
success_rate at every step, keeps all three strictly below 1, and drives
all three monotonically toward 1. -/
theorem c8_perfect_outcome_convergence (e : PerfEntry)
    (hinv : e.success_rate
      = (6/10) * e.satisfaction_avg + (4/10) * e.resolution_rate)
    (hsa : e.satisfaction_avg < 1) (hrr : e.resolution_rate < 1) :
    (∀ n, (iteratePerf e n).satisfaction_avg < (iteratePerf e (n+1)).satisfaction_avg
        ∧ (iteratePerf e n).resolution_rate < (iteratePerf e (n+1)).resolution_rate
        ∧ (iteratePerf e n).success_rate < (iteratePerf e (n+1)).success_rate) ∧
      (∀ n, (iteratePerf e n).satisfaction_avg < 1
        ∧ (iteratePerf e n).resolution_rate < 1
        ∧ (iteratePerf e n).success_rate < 1) ∧
      (∀ ε : ℚ, 0 < ε → ∃ N, ∀ n, N ≤ n →
        1 - ε < (iteratePerf e n).satisfaction_avg
        ∧ 1 - ε < (iteratePerf e n).resolution_rate
        ∧ 1 - ε < (iteratePerf e n).success_rate) := by
  have hpow : ∀ n : ℕ, (0:ℚ) < (9/10)^n := fun n => pow_pos (by norm_num) n
  have hcsa : (0:ℚ) < 1 - e.satisfaction_avg := by linarith
  have hcrr : (0:ℚ) < 1 - e.resolution_rate := by linarith
  have hsa_lt : ∀ n, (iteratePerf e n).satisfaction_avg < 1 := by
    intro n
    have h1 := iteratePerf_sa_gap e n
    have h2 := mul_pos (hpow n) hcsa
    linarith
  have hrr_lt : ∀ n, (iteratePerf e n).resolution_rate < 1 := by
    intro n
    have h1 := iteratePerf_rr_gap e n
    have h2 := mul_pos (hpow n) hcrr
    linarith
  have hsr_eq := iteratePerf_sr_eq e hinv
  have hsr_lt : ∀ n, (iteratePerf e n).success_rate < 1 := by
    intro n
    rw [hsr_eq n]
    have h1 := hsa_lt n
    have h2 := hrr_lt n
    linarith
  have hpow_step : ∀ n : ℕ, ((9:ℚ)/10)^(n+1) < (9/10)^n := by
    intro n
    rw [pow_succ]
    have h9 : (9:ℚ)/10 < 1 := by norm_num
    nlinarith [hpow n]
  have hsa_mono : ∀ n, (iteratePerf e n).satisfaction_avg
      < (iteratePerf e (n+1)).satisfaction_avg := by
    intro n
    have h1 := iteratePerf_sa_gap e n
    have h2 := iteratePerf_sa_gap e (n+1)
    have h3 : ((9:ℚ)/10)^(n+1) * (1 - e.satisfaction_avg)
        < (9/10)^n * (1 - e.satisfaction_avg) :=
      mul_lt_mul_of_pos_right (hpow_step n) hcsa
    linarith
  have hrr_mono : ∀ n, (iteratePerf e n).resolution_rate
      < (iteratePerf e (n+1)).resolution_rate := by
    intro n
    have h1 := iteratePerf_rr_gap e n
    have h2 := iteratePerf_rr_gap e (n+1)
    have h3 : ((9:ℚ)/10)^(n+1) * (1 - e.resolution_rate)
        < (9/10)^n * (1 - e.resolution_rate) :=
      mul_lt_mul_of_pos_right (hpow_step n) hcrr
    linarith
  have hsr_mono : ∀ n, (iteratePerf e n).success_rate
      < (iteratePerf e (n+1)).success_rate := by
    intro n
    rw [hsr_eq n, hsr_eq (n+1)]
    have h1 := hsa_mono n
    have h2 := hrr_mono n
    linarith
  refine ⟨fun n => ⟨hsa_mono n, hrr_mono n, hsr_mono n⟩,
    fun n => ⟨hsa_lt n, hrr_lt n, hsr_lt n⟩, ?_⟩
  intro ε hε
  have hc0 : (0:ℚ) < max (1 - e.satisfaction_avg) (1 - e.resolution_rate) :=
    lt_max_iff.mpr (Or.inl hcsa)
  obtain ⟨N, hN⟩ := exists_pow_lt_of_lt_one (div_pos hε hc0)
    (show (9:ℚ)/10 < 1 by norm_num)
  refine ⟨N, fun n hn => ?_⟩
  have hmono : ((9:ℚ)/10)^n ≤ (9/10)^N :=
    pow_le_pow_of_le_one (by norm_num) (by norm_num) hn
  have hlt : ((9:ℚ)/10)^n
      < ε / max (1 - e.satisfaction_avg) (1 - e.resolution_rate) :=
    lt_of_le_of_lt hmono hN
  have hmul : ((9:ℚ)/10)^n * max (1 - e.satisfaction_avg) (1 - e.resolution_rate)
      < ε := by
    have h4 := mul_lt_mul_of_pos_right hlt hc0
    rw [div_mul_cancel₀ ε (ne_of_gt hc0)] at h4
    exact h4
  have hsa_bound : ((9:ℚ)/10)^n * (1 - e.satisfaction_avg) < ε := by
    have h5 : ((9:ℚ)/10)^n * (1 - e.satisfaction_avg)
        ≤ (9/10)^n * max (1 - e.satisfaction_avg) (1 - e.resolution_rate) :=
      mul_le_mul_of_nonneg_left (le_max_left _ _) (le_of_lt (hpow n))
    linarith
  have hrr_bound : ((9:ℚ)/10)^n * (1 - e.resolution_rate) < ε := by
    have h5 : ((9:ℚ)/10)^n * (1 - e.resolution_rate)
        ≤ (9/10)^n * max (1 - e.satisfaction_avg) (1 - e.resolution_rate) :=
      mul_le_mul_of_nonneg_left (le_max_right _ _) (le_of_lt (hpow n))
    linarith
  have g1 : 1 - ε < (iteratePerf e n).satisfaction_avg := by
    have h6 := iteratePerf_sa_gap e n
    linarith
  have g2 : 1 - ε < (iteratePerf e n).resolution_rate := by
    have h6 := iteratePerf_rr_gap e n
    linarith
  have g3 : 1 - ε < (iteratePerf e n).success_rate := by
    rw [hsr_eq n]
    linarith
  exact ⟨g1, g2, g3⟩

/-- C8 witness: the convergence statement instantiated at the lazily
created default entry. -/
theorem c8_perfect_outcome_convergence_witness :
    (defaultPerf.success_rate
        = (6/10) * defaultPerf.satisfaction_avg
          + (4/10) * defaultPerf.resolution_rate
      ∧ defaultPerf.satisfaction_avg < 1 ∧ defaultPerf.resolution_rate < 1) ∧
    ((∀ n, (iteratePerf defaultPerf n).satisfaction_avg
          < (iteratePerf defaultPerf (n+1)).satisfaction_avg
        ∧ (iteratePerf defaultPerf n).resolution_rate
          < (iteratePerf defaultPerf (n+1)).resolution_rate
        ∧ (iteratePerf defaultPerf n).success_rate
          < (iteratePerf defaultPerf (n+1)).success_rate) ∧
      (∀ n, (iteratePerf defaultPerf n).satisfaction_avg < 1
        ∧ (iteratePerf defaultPerf n).resolution_rate < 1
        ∧ (iteratePerf defaultPerf n).success_rate < 1) ∧
      (∀ ε : ℚ, 0 < ε → ∃ N, ∀ n, N ≤ n →
        1 - ε < (iteratePerf defaultPerf n).satisfaction_avg
        ∧ 1 - ε < (iteratePerf defaultPerf n).resolution_rate
        ∧ 1 - ε < (iteratePerf defaultPerf n).success_rate)) :=
  ⟨⟨by norm_num [defaultPerf], by norm_num [defaultPerf], by norm_num [defaultPerf]⟩,
    c8_perfect_outcome_convergence defaultPerf (by norm_num [defaultPerf])
      (by norm_num [defaultPerf]) (by norm_num [defaultPerf])⟩

end Aura
